import Mathlib

/-!
Verification of the Sentinel-ML pipeline (generate_data.py, train_models.py,
ml_api.py) against its specification.

Numeric values that the Python code holds in floats are embedded as rationals
(`ℚ`); `numpy`/`pandas` rounding (round half to even) and `Series.clip` are
modelled explicitly below.
-/

/-- Round half to even to an integer: the rounding used by Python's built-in
`round` and by `numpy`/`pandas` `.round`. -/
def rne (x : ℚ) : ℤ :=
  if x - (⌊x⌋ : ℚ) < 1/2 then ⌊x⌋
  else if 1/2 < x - (⌊x⌋ : ℚ) then ⌊x⌋ + 1
  else if 2 ∣ ⌊x⌋ then ⌊x⌋ else ⌊x⌋ + 1

/-- Rounding to one decimal place, as in `Series.round(1)`. -/
def round1 (x : ℚ) : ℚ := (rne (10 * x) : ℚ) / 10

/-- Rounding to three decimal places, as in Python's `round(_, 3)`. -/
def round3 (x : ℚ) : ℚ := (rne (1000 * x) : ℚ) / 1000

/-- `pandas` `Series.clip(lo, hi)`: values below `lo` become `lo`, values
above `hi` become `hi`. -/
def clip (lo hi x : ℚ) : ℚ := min hi (max lo x)

/-- The `feedback_score` column of `generate_data.py`:
`(5 - developer_feedbacks * 0.5 + test_coverage * 2 + past_acceptance_rate).clip(1, 5).round(1)`. -/
def feedback_score (developer_feedbacks : ℕ)
    (test_coverage past_acceptance_rate : ℚ) : ℚ :=
  round1 (clip 1 5
    (5 - (developer_feedbacks : ℚ) * (1/2) + test_coverage * 2 + past_acceptance_rate))

/-- The `assign_priority` row function of `generate_data.py`. -/
def assign_priority (severity_score : ℕ) : String :=
  if severity_score ≥ 8 then "critical"
  else if severity_score ≥ 6 then "high"
  else if severity_score ≥ 4 then "medium"
  else "low"

/-- The `accepted` column of `generate_data.py`: the conjunction of the four
feature thresholds, cast to an integer with `.astype(int)`. -/
def accepted (developer_feedbacks : ℕ) (test_coverage past_acceptance_rate : ℚ)
    (severity_score : ℕ) : ℕ :=
  if developer_feedbacks < 3 ∧ test_coverage > 6/10 ∧ past_acceptance_rate > 5/10 ∧
      severity_score < 9 then 1 else 0

/-- One sampled row of base features, as drawn in `generate_data.py`
(before the dependent columns are added). -/
structure GenRow where
  severity_score : ℕ
  code_complexity : ℕ
  lines_changed : ℕ
  developer_feedbacks : ℕ
  test_coverage : ℚ
  past_acceptance_rate : ℚ
  contains_security_fix : ℕ
  review_time : ℚ
deriving DecidableEq

/-- The ranges of the `numpy` sampling calls in `generate_data.py`:
`randint(1, 11)`, `randint(1, 11)`, `randint(5, 500)`, `randint(0, 6)`,
`uniform(0.3, 1.0)`, `uniform(0.2, 1.0)`, `choice([0, 1])`,
`uniform(0.5, 48.0)`. -/
def GenRow.sampled (r : GenRow) : Prop :=
  1 ≤ r.severity_score ∧ r.severity_score ≤ 10 ∧
  1 ≤ r.code_complexity ∧ r.code_complexity ≤ 10 ∧
  5 ≤ r.lines_changed ∧ r.lines_changed ≤ 499 ∧
  r.developer_feedbacks ≤ 5 ∧
  mkRat 3 10 ≤ r.test_coverage ∧ r.test_coverage < 1 ∧
  mkRat 2 10 ≤ r.past_acceptance_rate ∧ r.past_acceptance_rate < 1 ∧
  (r.contains_security_fix = 0 ∨ r.contains_security_fix = 1) ∧
  mkRat 5 10 ≤ r.review_time ∧ r.review_time < 48

instance (r : GenRow) : Decidable r.sampled := by
  unfold GenRow.sampled; infer_instance

/-- The `feedback_bucket` function of `train_models.py`. -/
def feedback_bucket (score : ℚ) : String :=
  if score ≤ 22/10 then "reject"
  else if score ≤ 36/10 then "major"
  else "minor"

/-- The feedback label the trainer attaches to a generated row:
`feedback_bucket` applied to the row's `feedback_score`. -/
def GenRow.feedback_label (r : GenRow) : String :=
  feedback_bucket (feedback_score r.developer_feedbacks r.test_coverage r.past_acceptance_rate)

/-! Basic bounds for the round-half-to-even primitive. -/

theorem floor_le_rne (x : ℚ) : ⌊x⌋ ≤ rne x := by
  unfold rne
  split_ifs <;> omega

theorem rne_le_of_le {x : ℚ} {M : ℤ} (h : x ≤ (M : ℚ)) : rne x ≤ M := by
  have hfl : ⌊x⌋ ≤ M := by
    have := Int.floor_le_floor h
    simpa using this
  unfold rne
  split_ifs with h1 h2 h3
  · exact hfl
  · -- here 1/2 < x - ⌊x⌋, so x is not an integer and ⌊x⌋ < M
    have hx : (⌊x⌋ : ℚ) < x := by linarith
    have : (⌊x⌋ : ℚ) < (M : ℚ) := lt_of_lt_of_le hx h
    have : ⌊x⌋ < M := by exact_mod_cast this
    omega
  · exact hfl
  · -- tie case returning ⌊x⌋ + 1: x - ⌊x⌋ = 1/2 > 0
    have hr : x - (⌊x⌋ : ℚ) = 1/2 := le_antisymm (not_lt.mp h2) (not_lt.mp h1)
    have hx : (⌊x⌋ : ℚ) < x := by linarith
    have : (⌊x⌋ : ℚ) < (M : ℚ) := lt_of_lt_of_le hx h
    have : ⌊x⌋ < M := by exact_mod_cast this
    omega

theorem le_rne_of_le {x : ℚ} {m : ℤ} (h : (m : ℚ) ≤ x) : m ≤ rne x :=
  le_trans (Int.le_floor.mpr h) (floor_le_rne x)

/-- round1 maps `[a, b]` into `[a, b]` when `10*a` and `10*b` are integers. -/
theorem round1_mem_of_mem {x : ℚ} {a b : ℤ}
    (ha : (a : ℚ) / 10 ≤ x) (hb : x ≤ (b : ℚ) / 10) :
    (a : ℚ) / 10 ≤ round1 x ∧ round1 x ≤ (b : ℚ) / 10 := by
  have h10 : (0:ℚ) < 10 := by norm_num
  have hlo : (a : ℚ) ≤ 10 * x := by
    rw [div_le_iff₀ h10] at ha; linarith
  have hhi : 10 * x ≤ (b : ℚ) := by
    rw [le_div_iff₀ h10] at hb; linarith
  have h1 : a ≤ rne (10 * x) := le_rne_of_le hlo
  have h2 : rne (10 * x) ≤ b := rne_le_of_le hhi
  constructor
  · unfold round1
    apply div_le_div_of_nonneg_right _ h10.le
    exact_mod_cast h1
  · unfold round1
    apply div_le_div_of_nonneg_right _ h10.le
    exact_mod_cast h2

/-- A concrete sampled row used to witness theorems about generated rows. -/
def sampleRow : GenRow := ⟨8, 7, 100, 2, mkRat 7 10, mkRat 8 10, 1, 5⟩

/-- C1: on every generated row, the priority label is "critical" iff
severity_score ≥ 8, "high" iff 6 ≤ severity_score < 8, "medium" iff
4 ≤ severity_score < 6, and "low" otherwise (iff severity_score < 4). -/
theorem assign_priority_spec (r : GenRow) (_h : r.sampled) :
    (assign_priority r.severity_score = "critical" ↔ 8 ≤ r.severity_score) ∧
    (assign_priority r.severity_score = "high" ↔
      6 ≤ r.severity_score ∧ r.severity_score < 8) ∧
    (assign_priority r.severity_score = "medium" ↔
      4 ≤ r.severity_score ∧ r.severity_score < 6) ∧
    (assign_priority r.severity_score = "low" ↔ r.severity_score < 4) := by
  unfold assign_priority
  split_ifs with h1 h2 h3 <;> refine ⟨?_, ?_, ?_, ?_⟩ <;> simp <;> omega

/-- Witness for `assign_priority_spec` at a concrete sampled row. -/
theorem assign_priority_spec_witness :
    sampleRow.sampled ∧
    ((assign_priority sampleRow.severity_score = "critical" ↔ 8 ≤ sampleRow.severity_score) ∧
     (assign_priority sampleRow.severity_score = "high" ↔
       6 ≤ sampleRow.severity_score ∧ sampleRow.severity_score < 8) ∧
     (assign_priority sampleRow.severity_score = "medium" ↔
       4 ≤ sampleRow.severity_score ∧ sampleRow.severity_score < 6) ∧
     (assign_priority sampleRow.severity_score = "low" ↔ sampleRow.severity_score < 4)) :=
  ⟨by decide, assign_priority_spec sampleRow (by decide)⟩

/-- C2: on every generated row, accepted = 1 iff developer_feedbacks < 3 and
test_coverage > 0.6 and past_acceptance_rate > 0.5 and severity_score < 9,
and accepted = 0 otherwise. -/
theorem accepted_spec (r : GenRow) (_h : r.sampled) :
    (accepted r.developer_feedbacks r.test_coverage r.past_acceptance_rate
        r.severity_score = 1 ↔
      (r.developer_feedbacks < 3 ∧ 6/10 < r.test_coverage ∧
        5/10 < r.past_acceptance_rate ∧ r.severity_score < 9)) ∧
    (accepted r.developer_feedbacks r.test_coverage r.past_acceptance_rate
        r.severity_score = 0 ↔
      ¬ (r.developer_feedbacks < 3 ∧ 6/10 < r.test_coverage ∧
        5/10 < r.past_acceptance_rate ∧ r.severity_score < 9)) := by
  unfold accepted
  split_ifs with hc <;> simp [hc]

/-- Witness for `accepted_spec` at a concrete sampled row. -/
theorem accepted_spec_witness :
    sampleRow.sampled ∧
    ((accepted sampleRow.developer_feedbacks sampleRow.test_coverage
        sampleRow.past_acceptance_rate sampleRow.severity_score = 1 ↔
      (sampleRow.developer_feedbacks < 3 ∧ 6/10 < sampleRow.test_coverage ∧
        5/10 < sampleRow.past_acceptance_rate ∧ sampleRow.severity_score < 9)) ∧
     (accepted sampleRow.developer_feedbacks sampleRow.test_coverage
        sampleRow.past_acceptance_rate sampleRow.severity_score = 0 ↔
      ¬ (sampleRow.developer_feedbacks < 3 ∧ 6/10 < sampleRow.test_coverage ∧
        5/10 < sampleRow.past_acceptance_rate ∧ sampleRow.severity_score < 9))) :=
  ⟨by decide, accepted_spec sampleRow (by decide)⟩

/-- C3: feedback_score is exactly the linear combination
5 - 0.5*developer_feedbacks + 2*test_coverage + past_acceptance_rate clipped
to [1, 5] and rounded to one decimal place, and it always lies in [1, 5]. -/
theorem feedback_score_spec (developer_feedbacks : ℕ)
    (test_coverage past_acceptance_rate : ℚ) :
    feedback_score developer_feedbacks test_coverage past_acceptance_rate =
      round1 (clip 1 5 (5 - (developer_feedbacks : ℚ) * (1/2) +
        test_coverage * 2 + past_acceptance_rate)) ∧
    1 ≤ feedback_score developer_feedbacks test_coverage past_acceptance_rate ∧
    feedback_score developer_feedbacks test_coverage past_acceptance_rate ≤ 5 := by
  refine ⟨rfl, ?_⟩
  set z : ℚ := 5 - (developer_feedbacks : ℚ) * (1/2) + test_coverage * 2 +
    past_acceptance_rate with hz
  have hy1 : (1:ℚ) ≤ clip 1 5 z := le_min (by norm_num) (le_max_left 1 z)
  have hy5 : clip 1 5 z ≤ 5 := min_le_left 5 (max 1 z)
  have hmem := round1_mem_of_mem (a := 10) (b := 50) (x := clip 1 5 z)
    (by push_cast; linarith) (by push_cast; linarith)
  obtain ⟨hl, hr⟩ := hmem
  norm_num at hl hr
  exact ⟨hl, hr⟩

/-- C4: the trainer's feedback bucket has fixed thresholds: "reject" iff
score ≤ 2.2, "major" iff 2.2 < score ≤ 3.6, and "minor" otherwise
(iff 3.6 < score). -/
theorem feedback_bucket_spec (score : ℚ) :
    (feedback_bucket score = "reject" ↔ score ≤ 22/10) ∧
    (feedback_bucket score = "major" ↔ 22/10 < score ∧ score ≤ 36/10) ∧
    (feedback_bucket score = "minor" ↔ 36/10 < score) := by
  unfold feedback_bucket
  split_ifs with h1 h2
  · refine ⟨⟨fun _ => h1, fun _ => rfl⟩,
      ⟨fun hE => absurd hE (by decide), fun hP => absurd h1 (not_le.mpr hP.1)⟩,
      ⟨fun hE => absurd hE (by decide), fun hP => absurd h1 (by linarith)⟩⟩
  · push_neg at h1
    refine ⟨⟨fun hE => absurd hE (by decide), fun hP => absurd hP (not_le.mpr h1)⟩,
      ⟨fun _ => ⟨h1, h2⟩, fun _ => rfl⟩,
      ⟨fun hE => absurd hE (by decide), fun hP => absurd h2 (not_le.mpr hP)⟩⟩
  · push_neg at h1 h2
    refine ⟨⟨fun hE => absurd hE (by decide), fun hP => absurd hP (not_le.mpr (by linarith))⟩,
      ⟨fun hE => absurd hE (by decide), fun hP => absurd hP.2 (not_le.mpr h2)⟩,
      ⟨fun _ => h2, fun _ => rfl⟩⟩

/-- Lexicographic comparison of char lists by code point. Used to model the
sorted class order of `numpy` `np.unique`; written structurally so that it
evaluates inside the kernel (the built-in `String` order does not). -/
def lexLe : List Char → List Char → Bool
  | [], _ => true
  | _ :: _, [] => false
  | a :: as, b :: bs =>
    if a.toNat < b.toNat then true
    else if b.toNat < a.toNat then false
    else lexLe as bs

/-- String comparison by code points, as `numpy` compares label strings. -/
def strLe (a b : String) : Bool := lexLe a.data b.data

/-- A fitted `sklearn` `LabelEncoder`: its `classes_` array. -/
structure LabelEncoder where
  classes : List String
deriving DecidableEq

/-- `LabelEncoder.fit` (and the fitting half of `fit_transform`) stores the
sorted distinct labels (`np.unique(y)`) as `classes_`. -/
def LabelEncoder.fit (ys : List String) : LabelEncoder :=
  ⟨List.insertionSort (fun a b => strLe a b = true) ys.dedup⟩

/-- `LabelEncoder.transform` on one label: its index in `classes_`. -/
def LabelEncoder.transform (e : LabelEncoder) (y : String) : ℕ :=
  e.classes.indexOf y

/-- `LabelEncoder.inverse_transform` on one class index: the label stored at
that index, `none` modelling the out-of-bounds error. -/
def LabelEncoder.inverse_transform (e : LabelEncoder) (i : ℕ) : Option String :=
  e.classes.get? i

theorem mem_fit_classes {y : String} {ys : List String} :
    y ∈ (LabelEncoder.fit ys).classes ↔ y ∈ ys := by
  unfold LabelEncoder.fit
  rw [(List.perm_insertionSort _ ys.dedup).mem_iff, List.mem_dedup]

/-- C7: for every label in any test split (a subset of the full label column
the encoder was fitted on), encoding through `transform` and decoding through
`inverse_transform` returns the original label; in particular every test-split
label is representable. Taking the split to be the full column gives the
round-trip for every class seen during fitting. -/
theorem label_encoder_roundtrip (ys test : List String) (hsub : test ⊆ ys)
    (y : String) (hy : y ∈ test) :
    y ∈ (LabelEncoder.fit ys).classes ∧
    (LabelEncoder.fit ys).inverse_transform ((LabelEncoder.fit ys).transform y) =
      some y := by
  have hmem : y ∈ (LabelEncoder.fit ys).classes := mem_fit_classes.mpr (hsub hy)
  exact ⟨hmem, List.indexOf_get? hmem⟩

/-- Witness for `label_encoder_roundtrip` on a concrete label column. -/
theorem label_encoder_roundtrip_witness :
    (["minor", "major"] ⊆ ["major", "minor", "major"]) ∧
    ("minor" ∈ (["minor", "major"] : List String)) ∧
    ("minor" ∈ (LabelEncoder.fit ["major", "minor", "major"]).classes ∧
     (LabelEncoder.fit ["major", "minor", "major"]).inverse_transform
       ((LabelEncoder.fit ["major", "minor", "major"]).transform "minor") =
       some "minor") :=
  ⟨by decide, by decide,
    label_encoder_roundtrip ["major", "minor", "major"] ["minor", "major"]
      (by decide) "minor" (by decide)⟩

/-- The `NUM_FEATURES` list of `train_models.py`, also persisted as
`model_features.pkl` and used by the API to order the input vector. -/
def NUM_FEATURES : List String :=
  ["severity_score", "code_complexity", "lines_changed", "developer_feedbacks",
   "test_coverage", "past_acceptance_rate", "contains_security_fix", "review_time"]

/-- The loaded dataset table: its header (`df.columns`) and the three label
columns the trainer reads from it. -/
structure Table where
  columns : List String
  feedback_scores : List ℚ
  priorities : List String
  acceptedFlags : List ℕ
deriving DecidableEq

inductive TrainError where
  | fileNotFound
  | keyErrorFeedbackScore
deriving DecidableEq

/-- The artifacts `train_models.py` leaves behind that later runs consume:
the two fitted label encoders and the persisted feature list. The three
fitted sklearn pipelines are opaque and are tracked only through the names
of the files the script dumps. -/
structure TrainArtifacts where
  le_priority : LabelEncoder
  le_feedback : LabelEncoder
  featureNames : List String
deriving DecidableEq

structure TrainRunResult where
  written : List String
  outcome : Except TrainError TrainArtifacts

/-- The model files dumped by the three `train_and_evaluate` calls. -/
def modelFiles : List String :=
  ["model_feedback.pkl", "model_priority.pkl", "model_accept.pkl"]

/-- The `train_models.py` script: `none` models an absent
`synthetic_pr_data.csv`. The script raises `FileNotFoundError` before reading
when the file is absent, raises `KeyError` when the `feedback_score` column is
missing, and otherwise derives `feedback_label` via `feedback_bucket`, fits
the two label encoders on the full dataset, and dumps encoders, the three
trained pipelines, and the feature list. -/
def train_models (file : Option Table) : TrainRunResult :=
  match file with
  | none => ⟨[], Except.error TrainError.fileNotFound⟩
  | some df =>
    if "feedback_score" ∈ df.columns then
      ⟨["labelencoder_priority.pkl", "labelencoder_feedback.pkl",
        "model_feedback.pkl", "model_priority.pkl", "model_accept.pkl",
        "model_features.pkl"],
       Except.ok ⟨LabelEncoder.fit df.priorities,
         LabelEncoder.fit (df.feedback_scores.map feedback_bucket),
         NUM_FEATURES⟩⟩
    else ⟨[], Except.error TrainError.keyErrorFeedbackScore⟩

/-- C8: the trainer fails fast: an absent dataset file raises
`FileNotFoundError`, a present table without the `feedback_score` column
raises `KeyError`, and in both cases none of the three model artifacts is
written. -/
theorem train_models_fails_fast (t : Table) (h : "feedback_score" ∉ t.columns) :
    ((train_models none).outcome = Except.error TrainError.fileNotFound ∧
      (train_models none).written = []) ∧
    ((train_models (some t)).outcome = Except.error TrainError.keyErrorFeedbackScore ∧
      ∀ f ∈ modelFiles, f ∉ (train_models (some t)).written) := by
  refine ⟨⟨rfl, rfl⟩, ?_, ?_⟩
  · simp [train_models, h]
  · intro f _
    simp [train_models, h]

/-- Witness for `train_models_fails_fast` at a concrete header. -/
theorem train_models_fails_fast_witness :
    ("feedback_score" ∉ (Table.mk ["severity_score"] [] [] []).columns) ∧
    (((train_models none).outcome = Except.error TrainError.fileNotFound ∧
      (train_models none).written = []) ∧
     ((train_models (some (Table.mk ["severity_score"] [] [] []))).outcome =
        Except.error TrainError.keyErrorFeedbackScore ∧
      ∀ f ∈ modelFiles,
        f ∉ (train_models (some (Table.mk ["severity_score"] [] [] []))).written)) :=
  ⟨by decide, train_models_fails_fast (Table.mk ["severity_score"] [] [] []) (by decide)⟩

/-- On sampled feature bounds (developer_feedbacks ≤ 5, test_coverage ≥ 0.3,
past_acceptance_rate ≥ 0.2) the generated feedback_score is at least 3.3. -/
theorem feedback_score_ge_33 {dfb : ℕ} {tc par : ℚ} (hd : dfb ≤ 5)
    (htc : mkRat 3 10 ≤ tc) (hpar : mkRat 2 10 ≤ par) :
    mkRat 33 10 ≤ feedback_score dfb tc par := by
  rw [Rat.mkRat_eq_div] at htc hpar ⊢
  push_cast at htc hpar ⊢
  have hdq : (dfb : ℚ) ≤ 5 := by exact_mod_cast hd
  unfold feedback_score
  set z : ℚ := 5 - (dfb : ℚ) * (1/2) + tc * 2 + par with hzdef
  have hz : (33:ℚ)/10 ≤ clip 1 5 z := by
    unfold clip
    refine le_min (by norm_num) (le_trans ?_ (le_max_right 1 z))
    rw [hzdef]; linarith
  have hub : clip 1 5 z ≤ 5 := min_le_left 5 (max 1 z)
  obtain ⟨h1, h2⟩ := round1_mem_of_mem (a := 33) (b := 50) (x := clip 1 5 z)
    (by push_cast; linarith) (by push_cast; linarith)
  push_cast at h1
  exact h1

/-- On every sampled row the derived feedback label is major or minor. -/
theorem feedback_label_major_or_minor (r : GenRow) (h : r.sampled) :
    r.feedback_label = "major" ∨ r.feedback_label = "minor" := by
  obtain ⟨-, -, -, -, -, -, hd, htc, -, hpar, -, -, -, -⟩ := h
  have h33 := feedback_score_ge_33 hd htc hpar
  rw [Rat.mkRat_eq_div] at h33
  push_cast at h33
  unfold GenRow.feedback_label feedback_bucket
  rw [if_neg (by linarith : ¬ feedback_score r.developer_feedbacks r.test_coverage
    r.past_acceptance_rate ≤ 22/10)]
  split_ifs
  · left; rfl
  · right; rfl

/-- C10: on every list of sampled rows, feedback_score is at least 3.3, the
derived feedback label is never "reject", the feedback LabelEncoder is fitted
on classes drawn only from {major, minor}, and decoding any class index can
never produce "reject". -/
theorem generated_feedback_never_reject (rows : List GenRow)
    (h : ∀ r ∈ rows, r.sampled) :
    (∀ r ∈ rows, mkRat 33 10 ≤
      feedback_score r.developer_feedbacks r.test_coverage r.past_acceptance_rate) ∧
    (∀ r ∈ rows, r.feedback_label ≠ "reject") ∧
    (∀ c ∈ (LabelEncoder.fit (rows.map GenRow.feedback_label)).classes,
      c = "major" ∨ c = "minor") ∧
    (∀ i s,
      (LabelEncoder.fit (rows.map GenRow.feedback_label)).inverse_transform i =
        some s → s ≠ "reject") := by
  have hlab : ∀ c ∈ rows.map GenRow.feedback_label, c = "major" ∨ c = "minor" := by
    intro c hc
    obtain ⟨r, hr, rfl⟩ := List.mem_map.mp hc
    exact feedback_label_major_or_minor r (h r hr)
  refine ⟨?_, ?_, ?_, ?_⟩
  · intro r hr
    obtain ⟨-, -, -, -, -, -, hd, htc, -, hpar, -, -, -, -⟩ := h r hr
    exact feedback_score_ge_33 hd htc hpar
  · intro r hr
    rcases feedback_label_major_or_minor r (h r hr) with h1 | h1 <;> simp [h1]
  · intro c hc
    exact hlab c (mem_fit_classes.mp hc)
  · intro i s hs
    have hmem : s ∈ (LabelEncoder.fit (rows.map GenRow.feedback_label)).classes :=
      List.get?_mem hs
    rcases hlab s (mem_fit_classes.mp hmem) with h1 | h1 <;> simp [h1]

/-- Witness for `generated_feedback_never_reject` on a one-row dataset. -/
theorem generated_feedback_never_reject_witness :
    (∀ r ∈ [sampleRow], r.sampled) ∧
    ((∀ r ∈ [sampleRow], mkRat 33 10 ≤
        feedback_score r.developer_feedbacks r.test_coverage r.past_acceptance_rate) ∧
     (∀ r ∈ [sampleRow], r.feedback_label ≠ "reject") ∧
     (∀ c ∈ (LabelEncoder.fit ([sampleRow].map GenRow.feedback_label)).classes,
        c = "major" ∨ c = "minor") ∧
     (∀ i s,
        (LabelEncoder.fit ([sampleRow].map GenRow.feedback_label)).inverse_transform
          i = some s → s ≠ "reject")) :=
  ⟨by decide, generated_feedback_never_reject [sampleRow] (by decide)⟩

/-- The `IssueInput` pydantic model of `ml_api.py` after validation: eight
typed fields. The class declares types and defaults only — no numeric range
constraint appears on any field. -/
structure IssueInput where
  severity_score : ℚ
  code_complexity : ℚ
  lines_changed : ℤ
  developer_feedbacks : ℤ
  test_coverage : ℚ
  past_acceptance_rate : ℚ
  contains_security_fix : ℤ
  review_time : ℚ
deriving DecidableEq

/-- The documented default values of `IssueInput`. -/
def defaultInput : IssueInput := ⟨8, 7, 100, 2, 6/10, 8/10, 1, 5⟩

/-- `getattr(input, f)` for a feature name `f`; numeric values all land in the
single `numpy` array, hence one numeric type. Unknown names raise, modelled by
`none`. -/
def IssueInput.getattr (inp : IssueInput) : String → Option ℚ
  | "severity_score" => some inp.severity_score
  | "code_complexity" => some inp.code_complexity
  | "lines_changed" => some (inp.lines_changed : ℚ)
  | "developer_feedbacks" => some (inp.developer_feedbacks : ℚ)
  | "test_coverage" => some inp.test_coverage
  | "past_acceptance_rate" => some inp.past_acceptance_rate
  | "contains_security_fix" => some (inp.contains_security_fix : ℚ)
  | "review_time" => some inp.review_time
  | _ => none

/-- Modelled from the spec: the three fitted pipelines are opaque artifacts
(pickled sklearn models, absent from the repository), exposed through
`predict` (a class index for the two classifiers) and `predict_proba`
(`accept_predict_proba` is the positive-class entry `predict_proba(X)[0][1]`). -/
structure Models where
  feedback_predict : List ℚ → ℕ
  priority_predict : List ℚ → ℕ
  accept_predict_proba : List ℚ → ℚ

/-- The response dictionary of `predict()`: exactly the three keys
`feedback`, `priority`, `accept_prob`. -/
structure PredictResponse where
  feedback : String
  priority : String
  accept_prob : ℚ
deriving DecidableEq

/-- The `predict` route body of `ml_api.py`: build `X` in feature-list order
via `getattr`, decode the two classifier outputs through the encoders, and
round the positive-class acceptance probability to 3 decimals. -/
def predict (m : Models) (lep lef : LabelEncoder) (features : List String)
    (inp : IssueInput) : Option PredictResponse := do
  let X ← features.mapM inp.getattr
  let fb ← lef.inverse_transform (m.feedback_predict X)
  let pri ← lep.inverse_transform (m.priority_predict X)
  pure ⟨fb, pri, round3 (m.accept_predict_proba X)⟩

/-- The feature vector `X` that `predict` assembles from a validated input:
its fields read in `NUM_FEATURES` order. -/
def featureVec (inp : IssueInput) : List ℚ :=
  [inp.severity_score, inp.code_complexity, (inp.lines_changed : ℚ),
   (inp.developer_feedbacks : ℚ), inp.test_coverage, inp.past_acceptance_rate,
   (inp.contains_security_fix : ℚ), inp.review_time]

theorem round3_bounds {x : ℚ} (h0 : 0 ≤ x) (h1 : x ≤ 1) :
    0 ≤ round3 x ∧ round3 x ≤ 1 := by
  have hlo : ((0 : ℤ) : ℚ) ≤ 1000 * x := by push_cast; linarith
  have hhi : 1000 * x ≤ ((1000 : ℤ) : ℚ) := by push_cast; linarith
  have hl := le_rne_of_le hlo
  have hr := rne_le_of_le hhi
  unfold round3
  constructor
  · exact div_nonneg (by exact_mod_cast hl) (by norm_num)
  · rw [div_le_one (by norm_num : (0:ℚ) < 1000)]
    exact_mod_cast hr

/-- C5: for every prediction request that validation admits — every
`IssueInput`, the all-defaults request in particular — whenever the loaded
artifacts behave as fitted sklearn artifacts do on that request's feature
vector (class probabilities in `[0, 1]`, predicted class indices within the
fitted class sets), `predict` succeeds and returns the three-field response
whose `accept_prob` is the positive-class probability of the acceptance model
rounded to 3 decimals, lies in `[0, 1]`, and is an integer multiple of
1/1000; the two label fields are decoded class strings. -/
theorem predict_response_contract (m : Models) (lep lef : LabelEncoder)
    (inp : IssueInput)
    (hp0 : 0 ≤ m.accept_predict_proba (featureVec inp))
    (hp1 : m.accept_predict_proba (featureVec inp) ≤ 1)
    (hf : m.feedback_predict (featureVec inp) < lef.classes.length)
    (hpr : m.priority_predict (featureVec inp) < lep.classes.length) :
    ∃ resp : PredictResponse,
      predict m lep lef NUM_FEATURES inp = some resp ∧
      resp.accept_prob = round3 (m.accept_predict_proba (featureVec inp)) ∧
      0 ≤ resp.accept_prob ∧ resp.accept_prob ≤ 1 ∧
      (∃ k : ℤ, resp.accept_prob = (k : ℚ) / 1000) ∧
      resp.feedback ∈ lef.classes ∧ resp.priority ∈ lep.classes := by
  have hfb : lef.inverse_transform (m.feedback_predict (featureVec inp)) =
      some (lef.classes.get ⟨m.feedback_predict (featureVec inp), hf⟩) :=
    List.get?_eq_get hf
  have hpri : lep.inverse_transform (m.priority_predict (featureVec inp)) =
      some (lep.classes.get ⟨m.priority_predict (featureVec inp), hpr⟩) :=
    List.get?_eq_get hpr
  obtain ⟨hb0, hb1⟩ := round3_bounds hp0 hp1
  refine ⟨⟨lef.classes.get ⟨m.feedback_predict (featureVec inp), hf⟩,
    lep.classes.get ⟨m.priority_predict (featureVec inp), hpr⟩,
    round3 (m.accept_predict_proba (featureVec inp))⟩, ?_, rfl, hb0, hb1,
    ⟨rne (1000 * m.accept_predict_proba (featureVec inp)), rfl⟩,
    List.get_mem lef.classes _ hf,
    List.get_mem lep.classes _ hpr⟩
  have hpred : predict m lep lef NUM_FEATURES inp =
      (lef.inverse_transform (m.feedback_predict (featureVec inp))).bind fun fb =>
        (lep.inverse_transform (m.priority_predict (featureVec inp))).bind fun pri =>
          some ⟨fb, pri, round3 (m.accept_predict_proba (featureVec inp))⟩ := rfl
  rw [hpred, hfb, hpri]
  rfl

/-- Stand-in fitted models used in witnesses: constant predictions with
probability one half. -/
def constModels : Models := ⟨fun _ => 0, fun _ => 0, fun _ => mkRat 1 2⟩

/-- Witness for `predict_response_contract`: the all-defaults request with
stand-in artifacts. -/
theorem predict_response_contract_witness :
    (0 ≤ constModels.accept_predict_proba (featureVec defaultInput) ∧
     constModels.accept_predict_proba (featureVec defaultInput) ≤ 1 ∧
     constModels.feedback_predict (featureVec defaultInput) <
       (LabelEncoder.fit ["major", "minor"]).classes.length ∧
     constModels.priority_predict (featureVec defaultInput) <
       (LabelEncoder.fit ["low", "high"]).classes.length) ∧
    (∃ resp : PredictResponse,
      predict constModels (LabelEncoder.fit ["low", "high"])
        (LabelEncoder.fit ["major", "minor"]) NUM_FEATURES defaultInput = some resp ∧
      resp.accept_prob = round3 (constModels.accept_predict_proba (featureVec defaultInput)) ∧
      0 ≤ resp.accept_prob ∧ resp.accept_prob ≤ 1 ∧
      (∃ k : ℤ, resp.accept_prob = (k : ℚ) / 1000) ∧
      resp.feedback ∈ (LabelEncoder.fit ["major", "minor"]).classes ∧
      resp.priority ∈ (LabelEncoder.fit ["low", "high"]).classes) :=
  ⟨⟨by decide, by decide, by decide, by decide⟩,
    predict_response_contract constModels (LabelEncoder.fit ["low", "high"])
      (LabelEncoder.fit ["major", "minor"]) defaultInput
      (by decide) (by decide) (by decide) (by decide)⟩

/-- A raw JSON field of a prediction request before pydantic validation.
Pydantic v1 coerces any numeric value (int, float, bool, numeric string) into
the declared numeric type, so those are represented uniformly by `num`;
`text` stands for a non-numeric string, which every numeric validator
rejects. -/
inductive FieldValue where
  | num (q : ℚ)
  | text (s : String)
deriving DecidableEq

/-- A raw prediction request body: one value per declared `IssueInput` field. -/
structure RawRequest where
  severity_score : FieldValue
  code_complexity : FieldValue
  lines_changed : FieldValue
  developer_feedbacks : FieldValue
  test_coverage : FieldValue
  past_acceptance_rate : FieldValue
  contains_security_fix : FieldValue
  review_time : FieldValue
deriving DecidableEq

/-- Truncation toward zero, as Python's `int(...)` cast. -/
def ratTrunc (q : ℚ) : ℤ := if 0 ≤ q then ⌊q⌋ else ⌈q⌉

/-- The pydantic v1 validator for a bare `float` field: accepts any numeric
value unchanged, rejects non-numeric text. No range is checked, because
`IssueInput` declares none. -/
def coerceFloat : FieldValue → Option ℚ
  | FieldValue.num q => some q
  | FieldValue.text _ => none

/-- The pydantic v1 validator for a bare `int` field: casts a numeric value
with `int(...)`, rejects non-numeric text. No range is checked. -/
def coerceInt : FieldValue → Option ℤ
  | FieldValue.num q => some (ratTrunc q)
  | FieldValue.text _ => none

/-- Pydantic validation of a request body against `IssueInput`: each field is
type-coerced independently; any failure rejects the request. -/
def validateIssue (r : RawRequest) : Option IssueInput := do
  let sev ← coerceFloat r.severity_score
  let cc ← coerceFloat r.code_complexity
  let lc ← coerceInt r.lines_changed
  let dfb ← coerceInt r.developer_feedbacks
  let tc ← coerceFloat r.test_coverage
  let par ← coerceFloat r.past_acceptance_rate
  let sec ← coerceInt r.contains_security_fix
  let rt ← coerceFloat r.review_time
  pure ⟨sev, cc, lc, dfb, tc, par, sec, rt⟩

inductive ServiceError where
  | validationError
  | predictionError
deriving DecidableEq

/-- One request through the service: FastAPI runs pydantic validation first
(a 422 rejection, before the route body runs) and only on success executes
the `predict` route body against the loaded models. -/
def handlePredict (m : Models) (lep lef : LabelEncoder) (r : RawRequest) :
    Except ServiceError PredictResponse :=
  match validateIssue r with
  | none => Except.error ServiceError.validationError
  | some inp =>
    match predict m lep lef NUM_FEATURES inp with
    | none => Except.error ServiceError.predictionError
    | some resp => Except.ok resp

/-- A request that is well-typed but out of the declared PullRequestRecord
range: test_coverage = 5, far outside the documented fraction range 0–1. -/
def rawOutOfRange : RawRequest :=
  ⟨FieldValue.num 8, FieldValue.num 7, FieldValue.num 100, FieldValue.num 2,
   FieldValue.num 5, FieldValue.num (mkRat 8 10), FieldValue.num 1,
   FieldValue.num 5⟩

/-- C6 counterexample: the request whose test_coverage is 5 — outside the
declared 0–1 numeric range — is NOT rejected: it passes validation, the
models are invoked, and (with stand-in constant artifacts) the service
answers with an ok prediction response instead of an input-validation
failure. -/
theorem out_of_range_not_rejected :
    rawOutOfRange.test_coverage = FieldValue.num 5 ∧
    ¬ ((0:ℚ) ≤ 5 ∧ (5:ℚ) ≤ 1) ∧
    (validateIssue rawOutOfRange).isSome = true ∧
    handlePredict constModels (LabelEncoder.fit ["low"]) (LabelEncoder.fit ["major"])
      rawOutOfRange =
      Except.ok ⟨"major", "low", round3 (mkRat 1 2)⟩ := by
  refine ⟨rfl, ?_, rfl, rfl⟩
  intro hc
  have := hc.2
  norm_num at this

/-- C6 amended: malformed input is rejected before any model is invoked only
for type errors: a request with a non-numeric string in a numeric field fails
pydantic validation and the route body never runs, for every loaded model
triple. (Values outside the declared PullRequestRecord numeric ranges are not
validated and do reach the models — see `out_of_range_not_rejected`.) -/
theorem wrong_type_rejected_before_models (r : RawRequest) (s : String)
    (h : r.test_coverage = FieldValue.text s) :
    validateIssue r = none ∧
    ∀ (m : Models) (lep lef : LabelEncoder),
      handlePredict m lep lef r = Except.error ServiceError.validationError := by
  have hv : validateIssue r = none := by
    obtain ⟨f1, f2, f3, f4, f5, f6, f7, f8⟩ := r
    simp only at h
    subst h
    cases f1 <;> cases f2 <;> cases f3 <;> cases f4 <;>
      simp [validateIssue, coerceFloat, coerceInt]
  refine ⟨hv, fun m lep lef => ?_⟩
  simp [handlePredict, hv]

/-- A request with a non-numeric string in the test_coverage field. -/
def rawBadType : RawRequest :=
  ⟨FieldValue.num 8, FieldValue.num 7, FieldValue.num 100, FieldValue.num 2,
   FieldValue.text "high", FieldValue.num (mkRat 8 10), FieldValue.num 1,
   FieldValue.num 5⟩

/-- Witness for `wrong_type_rejected_before_models` at a concrete request. -/
theorem wrong_type_rejected_before_models_witness :
    (rawBadType.test_coverage = FieldValue.text "high") ∧
    (validateIssue rawBadType = none ∧
     ∀ (m : Models) (lep lef : LabelEncoder),
       handlePredict m lep lef rawBadType =
         Except.error ServiceError.validationError) :=
  ⟨rfl, wrong_type_rejected_before_models rawBadType "high" rfl⟩
